import Mathlib

/-!
Verification development for the supacrypt-csp repository: a Windows CSP
provider that delegates cryptographic operations to a remote backend over
gRPC.  The embedding below translates the data model and operations of
`include/error_handling.h`, `include/grpc_client.h`, `include/csp_provider.h`
and `csp_main.cpp` into Lean.  Components whose implementation files are not
part of the repository snapshot (the circuit breaker, connection pool,
handle table and error-translation bodies are declared in the headers but
defined elsewhere) are modelled from the design specification; each such
definition carries a doc comment starting with `Modelled from the spec:`.
-/

namespace SupacryptCsp

/-! ## Windows error-code constants (values fixed by the Windows SDK) -/

/-- Windows SDK constant ERROR_SUCCESS. -/
def ERROR_SUCCESS : Nat := 0

/-- Windows SDK constant ERROR_MORE_DATA. -/
def ERROR_MORE_DATA : Nat := 234

/-- Windows SDK constant NTE_BAD_HASH. -/
def NTE_BAD_HASH : Nat := 0x80090002

/-- Windows SDK constant NTE_BAD_KEY. -/
def NTE_BAD_KEY : Nat := 0x80090003

/-- Windows SDK constant NTE_BAD_LEN. -/
def NTE_BAD_LEN : Nat := 0x80090004

/-- Windows SDK constant NTE_BAD_DATA. -/
def NTE_BAD_DATA : Nat := 0x80090005

/-- Windows SDK constant NTE_BAD_SIGNATURE. -/
def NTE_BAD_SIGNATURE : Nat := 0x80090006

/-- Windows SDK constant NTE_BAD_ALGID. -/
def NTE_BAD_ALGID : Nat := 0x80090008

/-- Windows SDK constant NTE_BAD_FLAGS. -/
def NTE_BAD_FLAGS : Nat := 0x80090009

/-- Windows SDK constant NTE_BAD_KEY_STATE. -/
def NTE_BAD_KEY_STATE : Nat := 0x8009000B

/-- Windows SDK constant NTE_NO_KEY. -/
def NTE_NO_KEY : Nat := 0x8009000D

/-- Windows SDK constant NTE_EXISTS. -/
def NTE_EXISTS : Nat := 0x8009000F

/-- Windows SDK constant NTE_PERM. -/
def NTE_PERM : Nat := 0x80090010

/-- Windows SDK constant NTE_BAD_PROV_TYPE. -/
def NTE_BAD_PROV_TYPE : Nat := 0x80090014

/-- Windows SDK constant NTE_BAD_KEYSET. -/
def NTE_BAD_KEYSET : Nat := 0x80090016

/-- Windows SDK constant NTE_PROVIDER_DLL_FAIL. -/
def NTE_PROVIDER_DLL_FAIL : Nat := 0x8009001D

/-- Windows SDK constant NTE_FAIL. -/
def NTE_FAIL : Nat := 0x80090020

/-- Windows SDK constant NTE_NOT_SUPPORTED. -/
def NTE_NOT_SUPPORTED : Nat := 0x80090029

/-! ## CspErrorCode (error_handling.h, lines 30-51) -/

/-- Enumerators of `enum class CspErrorCode` from error_handling.h. -/
inductive CspErrorCode : Type
  | Success
  | InvalidParameter
  | ProviderDllFail
  | KeyNotFound
  | BadKeySpec
  | BadAlgorithm
  | BadFlags
  | BadKeyContainer
  | BadSignature
  | BadHash
  | BadData
  | BadLength
  | InsufficientBuffer
  | NotSupported
  | InternalError
  | NetworkError
  | AuthenticationFailed
  | AuthorizationFailed
  | KeyExists
  | InvalidHandle
  deriving DecidableEq, Repr

/-- Numeric (DWORD) value assigned to each enumerator in error_handling.h. -/
def CspErrorCode.toDWORD : CspErrorCode → Nat
  | .Success => ERROR_SUCCESS
  | .InvalidParameter => NTE_BAD_PROV_TYPE
  | .ProviderDllFail => NTE_PROVIDER_DLL_FAIL
  | .KeyNotFound => NTE_NO_KEY
  | .BadKeySpec => NTE_BAD_KEY
  | .BadAlgorithm => NTE_BAD_ALGID
  | .BadFlags => NTE_BAD_FLAGS
  | .BadKeyContainer => NTE_BAD_KEYSET
  | .BadSignature => NTE_BAD_SIGNATURE
  | .BadHash => NTE_BAD_HASH
  | .BadData => NTE_BAD_DATA
  | .BadLength => NTE_BAD_LEN
  | .InsufficientBuffer => ERROR_MORE_DATA
  | .NotSupported => NTE_NOT_SUPPORTED
  | .InternalError => NTE_FAIL
  | .NetworkError => NTE_FAIL
  | .AuthenticationFailed => NTE_BAD_KEY
  | .AuthorizationFailed => NTE_PERM
  | .KeyExists => NTE_EXISTS
  | .InvalidHandle => NTE_BAD_KEY_STATE

/-- List of every DWORD value taken by some `CspErrorCode` enumerator:
the "defined host error codes" of the taxonomy. -/
def definedCspDwords : List Nat :=
  [ERROR_SUCCESS, NTE_BAD_PROV_TYPE, NTE_PROVIDER_DLL_FAIL, NTE_NO_KEY,
   NTE_BAD_KEY, NTE_BAD_ALGID, NTE_BAD_FLAGS, NTE_BAD_KEYSET,
   NTE_BAD_SIGNATURE, NTE_BAD_HASH, NTE_BAD_DATA, NTE_BAD_LEN,
   ERROR_MORE_DATA, NTE_NOT_SUPPORTED, NTE_FAIL, NTE_PERM, NTE_EXISTS,
   NTE_BAD_KEY_STATE]

/-! ## Stub GrpcClient when gRPC is disabled (grpc_client.h, lines 333-365) -/

/-- Result type of the stub `GrpcClient::GrpcResult` when gRPC support is
compiled out: `success` defaults to false and `errorMessage` to the fixed
message (grpc_client.h lines 344-348). -/
structure StubGrpcResult where
  success : Bool := false
  errorMessage : String := "gRPC support not enabled"
  deriving DecidableEq, Repr

/-- Operations exposed by the stub GrpcClient (grpc_client.h lines 351-358). -/
inductive StubOp : Type
  | generateKey | signData | verifySignature | getKey
  | listKeys | deleteKey | encryptData | decryptData
  deriving DecidableEq, Repr

/-- Return value of the stub client's Initialize(): the body is
`return false` (grpc_client.h line 340). -/
def stubInitialize : Bool := false

/-- Return value of the stub client's IsReady(): the body is
`return false` (grpc_client.h line 342). -/
def stubIsReady : Bool := false

/-- Every stub operation returns a default-constructed `GrpcResult{}`
(grpc_client.h lines 351-358). -/
def stubCall : StubOp → StubGrpcResult := fun _ => {}

/-! ## CP* export guard (csp_main.cpp) -/

/-- Exported CP* entry points implemented in csp_main.cpp. -/
inductive CPEntryPoint : Type
  | acquireContext | releaseContext | genKey | destroyKey
  | setKeyParam | getKeyParam | exportKey | importKey
  | encrypt | decrypt | createHash | destroyHash
  | setHashParam | getHashParam | hashData | hashSessionKey
  | signHash | verifySignature | genRandom | getUserKey
  | setProvParam | getProvParam | deriveKey | duplicateHash | duplicateKey
  deriving DecidableEq, Repr

/-- Observable outcome of one CP* export call: the BOOL returned to the
host, the CSP error code set by `SetLastCspError` during the guard (if
any), and whether the corresponding `Internal_CP*` implementation was
invoked. -/
structure CPCallResult where
  ret : Bool
  guardError : Option Nat
  internalInvoked : Bool
  deriving DecidableEq, Repr

/-- Body shared by every CP* export in csp_main.cpp: if `g_bInitialized`
is false, set NTE_PROVIDER_DLL_FAIL and return FALSE without delegating;
otherwise delegate to the `Internal_CP*` implementation (whose boolean
result is abstracted by the `internal` argument). -/
def cpExport (gBInitialized : Bool) (internal : CPEntryPoint → Bool)
    (ep : CPEntryPoint) : CPCallResult :=
  if gBInitialized then
    { ret := internal ep, guardError := none, internalInvoked := true }
  else
    { ret := false, guardError := some NTE_PROVIDER_DLL_FAIL,
      internalInvoked := false }

/-! ## GrpcResult (grpc_client.h, lines 69-82) -/

/-- gRPC status codes of `grpc::StatusCode` (fixed by the gRPC library). -/
inductive GrpcStatusCode : Type
  | OK | CANCELLED | UNKNOWN | INVALID_ARGUMENT | DEADLINE_EXCEEDED
  | NOT_FOUND | ALREADY_EXISTS | PERMISSION_DENIED | RESOURCE_EXHAUSTED
  | FAILED_PRECONDITION | ABORTED | OUT_OF_RANGE | UNIMPLEMENTED
  | INTERNAL | UNAVAILABLE | DATA_LOSS | UNAUTHENTICATED
  deriving DecidableEq, Repr

/-- Embedding of `grpc::Status`: a status code plus the string returned
by `error_message()`. -/
structure GrpcStatus where
  code : GrpcStatusCode
  message : String
  deriving DecidableEq, Repr

/-- Embedding of `grpc::Status::ok()`: true exactly when the code is OK. -/
def GrpcStatus.ok (s : GrpcStatus) : Bool := s.code = GrpcStatusCode.OK

/-- Embedding of `GrpcResult<T>` (grpc_client.h lines 70-82) with the
response payload abstracted away: `success` flag, transport `status`, and
`errorMessage` string. -/
structure GrpcResult where
  success : Bool := false
  status : GrpcStatus
  errorMessage : String := ""
  deriving DecidableEq, Repr

/-- Embedding of `GrpcResult::IsSuccess()`:
`return success && status.ok();` (grpc_client.h line 76). -/
def GrpcResult.IsSuccess (r : GrpcResult) : Bool := r.success && r.status.ok

/-- Embedding of `GrpcResult::GetErrorMessage()` (grpc_client.h lines
77-81): return `errorMessage` if non-empty, else the status's
`error_message()` if the status is not OK, else "Unknown error". -/
def GrpcResult.GetErrorMessage (r : GrpcResult) : String :=
  if r.errorMessage ≠ "" then r.errorMessage
  else if ¬ r.status.ok then r.status.message
  else "Unknown error"

/-! ## Error translation (error_handling.h declares the mappings at lines
68-88; the defining .cpp file is not in the repository snapshot) -/

/-- Modelled from the spec: `MapGrpcStatusToCspError` (declared at
error_handling.h line 73; its body is not in the repository).  The spec
requires a deterministic table lookup in which transport statuses with a
specific host meaning translate to that host code and every unmapped
status translates to the generic `InternalError`.  Only the status code
participates in the lookup. -/
def MapGrpcStatusToCspError (status : GrpcStatus) : Nat :=
  match status.code with
  | .OK => CspErrorCode.Success.toDWORD
  | .INVALID_ARGUMENT => CspErrorCode.InvalidParameter.toDWORD
  | .NOT_FOUND => CspErrorCode.KeyNotFound.toDWORD
  | .ALREADY_EXISTS => CspErrorCode.KeyExists.toDWORD
  | .PERMISSION_DENIED => CspErrorCode.AuthorizationFailed.toDWORD
  | .UNAUTHENTICATED => CspErrorCode.AuthenticationFailed.toDWORD
  | .DEADLINE_EXCEEDED => CspErrorCode.NetworkError.toDWORD
  | .UNAVAILABLE => CspErrorCode.NetworkError.toDWORD
  | .UNIMPLEMENTED => CspErrorCode.NotSupported.toDWORD
  | _ => CspErrorCode.InternalError.toDWORD

/-- Status codes given a specific (non-fallback) entry in the modelled
translation table of `MapGrpcStatusToCspError`. -/
def mappedGrpcStatusCodes : List GrpcStatusCode :=
  [.OK, .INVALID_ARGUMENT, .NOT_FOUND, .ALREADY_EXISTS, .PERMISSION_DENIED,
   .UNAUTHENTICATED, .DEADLINE_EXCEEDED, .UNAVAILABLE, .UNIMPLEMENTED]

/-- Modelled from the spec: the backend domain error vocabulary
`supacrypt.v1.ErrorCode` (the protobuf definition is not in the
repository snapshot).  Constructors follow the domain errors the spec
names: key not found, algorithm unsupported, quota exceeded, plus
authentication, permission, existence, argument, network and internal
failures. -/
inductive BackendError : Type
  | errNone
  | errKeyNotFound
  | errAlgorithmUnsupported
  | errQuotaExceeded
  | errAuthenticationFailed
  | errPermissionDenied
  | errKeyExists
  | errInvalidArgument
  | errNetwork
  | errInternal
  deriving DecidableEq, Repr

/-- Modelled from the spec: `MapBackendErrorToCspError` (declared at
error_handling.h line 80; its body is not in the repository).  Domain
errors map to a specific host code where one exists, falling back to the
generic failure code. -/
def MapBackendErrorToCspError : BackendError → Nat
  | .errNone => CspErrorCode.Success.toDWORD
  | .errKeyNotFound => CspErrorCode.KeyNotFound.toDWORD
  | .errAlgorithmUnsupported => CspErrorCode.BadAlgorithm.toDWORD
  | .errQuotaExceeded => CspErrorCode.InternalError.toDWORD
  | .errAuthenticationFailed => CspErrorCode.AuthenticationFailed.toDWORD
  | .errPermissionDenied => CspErrorCode.AuthorizationFailed.toDWORD
  | .errKeyExists => CspErrorCode.KeyExists.toDWORD
  | .errInvalidArgument => CspErrorCode.InvalidParameter.toDWORD
  | .errNetwork => CspErrorCode.NetworkError.toDWORD
  | .errInternal => CspErrorCode.InternalError.toDWORD

/-- Modelled from the spec: `MapCspErrorToBackendError` (declared at
error_handling.h line 87; its body is not in the repository).  The
reverse table lookup from a host DWORD to a domain error; lossy because
distinct `CspErrorCode` enumerators share DWORD values. -/
def MapCspErrorToBackendError (cspError : Nat) : BackendError :=
  if cspError = ERROR_SUCCESS then .errNone
  else if cspError = NTE_NO_KEY then .errKeyNotFound
  else if cspError = NTE_BAD_ALGID then .errAlgorithmUnsupported
  else if cspError = NTE_BAD_KEY then .errAuthenticationFailed
  else if cspError = NTE_PERM then .errPermissionDenied
  else if cspError = NTE_EXISTS then .errKeyExists
  else if cspError = NTE_BAD_PROV_TYPE then .errInvalidArgument
  else .errInternal

/-! ## Per-thread error context (error_handling.h, lines 94-205) -/

/-- Embedding of `ErrorContext` (error_handling.h lines 94-109) without
the source-location fields. -/
structure ErrorContext where
  errorCode : Nat := ERROR_SUCCESS
  message : String := ""
  deriving DecidableEq, Repr

/-- Thread-local error state of one host thread: the `ErrorManager`
context (`lastError_`) and the value passed to `SetLastCspError`. -/
structure ThreadErrorState where
  lastError : Option ErrorContext
  lastCspError : Option Nat
  deriving DecidableEq, Repr

/-- Embedding of the `CSP_RETURN_ERROR(code, msg)` macro
(error_handling.h lines 184-188): build an ErrorContext, store it via
`ErrorManager::SetLastError`, call `SetLastCspError(code)`, and return
FALSE. -/
def cspReturnError (_st : ThreadErrorState) (code : Nat) (msg : String) :
    ThreadErrorState × Bool :=
  ({ lastError := some { errorCode := code, message := msg },
     lastCspError := some code }, false)

/-! ## Circuit breaker (grpc_client.h declares the state at lines 244-250
and the operations at lines 288-311; the defining .cpp file is not in the
repository snapshot) -/

/-- Circuit breaker states (grpc_client.h lines 35-39). -/
inductive CircuitBreakerState : Type
  | CLOSED | OPEN | HALF_OPEN
  deriving DecidableEq, Repr

/-- Circuit breaker configuration (grpc_client.h lines 59-64); the
success threshold is a real ratio in the source (`double`), embedded as a
rational. -/
structure CircuitBreakerConfig where
  failureThreshold : Nat := 5
  timeout : Nat := 60
  halfOpenMaxCalls : Nat := 3
  successThreshold : ℚ := 6/10

/-- Mutable circuit breaker state of `GrpcClient` (grpc_client.h lines
244-250): current state, failure counter, half-open probe counters and
the time of the last failure. -/
structure CBState where
  cbState : CircuitBreakerState
  failureCount : Nat
  halfOpenCalls : Nat
  halfOpenSuccesses : Nat
  lastFailureTime : Nat
  deriving DecidableEq, Repr

/-- Initial circuit breaker state: CLOSED with all counters zero. -/
def CBState.start : CBState :=
  { cbState := .CLOSED, failureCount := 0, halfOpenCalls := 0,
    halfOpenSuccesses := 0, lastFailureTime := 0 }

/-- Modelled from the spec: `GrpcClient::IsRequestAllowed` (declared at
grpc_client.h line 311; its body is not in the repository).  CLOSED
always allows; OPEN rejects until `timeout` has elapsed since the last
failure and then transitions to HALF_OPEN admitting the first probe;
HALF_OPEN admits up to `halfOpenMaxCalls` probes (counted in
`halfOpenCalls_`) and rejects beyond that count. -/
def IsRequestAllowed (cfg : CircuitBreakerConfig) (now : Nat)
    (s : CBState) : Bool × CBState :=
  match s.cbState with
  | .CLOSED => (true, s)
  | .OPEN =>
    if s.lastFailureTime + cfg.timeout ≤ now then
      (true, { s with
               cbState := .HALF_OPEN
               halfOpenCalls := 1
               halfOpenSuccesses := 0 })
    else (false, s)
  | .HALF_OPEN =>
    if s.halfOpenCalls < cfg.halfOpenMaxCalls then
      (true, { s with halfOpenCalls := s.halfOpenCalls + 1 })
    else (false, s)

/-- Modelled from the spec: `GrpcClient::HandleFailure` (declared at
grpc_client.h line 305; its body is not in the repository).  A failure
increments the failure counter and records the failure time; reaching
`failureThreshold` consecutive failures under CLOSED opens the circuit;
any probe failure under HALF_OPEN reopens it. -/
def HandleFailure (cfg : CircuitBreakerConfig) (now : Nat)
    (s : CBState) : CBState :=
  match s.cbState with
  | .CLOSED =>
    if cfg.failureThreshold ≤ s.failureCount + 1 then
      { s with
        cbState := .OPEN
        failureCount := s.failureCount + 1
        lastFailureTime := now }
    else
      { s with failureCount := s.failureCount + 1, lastFailureTime := now }
  | .HALF_OPEN =>
    { s with
      cbState := .OPEN
      failureCount := s.failureCount + 1
      lastFailureTime := now }
  | .OPEN =>
    { s with failureCount := s.failureCount + 1, lastFailureTime := now }

/-- Modelled from the spec: `GrpcClient::HandleSuccess` (declared at
grpc_client.h line 300; its body is not in the repository).  A success
under CLOSED resets the consecutive-failure counter; under HALF_OPEN it
increments `halfOpenSuccesses_` and, once `halfOpenMaxCalls` probes have
been admitted, closes the circuit when the probe success ratio reaches
`successThreshold` and reopens it otherwise. -/
def HandleSuccess (cfg : CircuitBreakerConfig) (s : CBState) : CBState :=
  match s.cbState with
  | .CLOSED => { s with failureCount := 0 }
  | .HALF_OPEN =>
    if cfg.halfOpenMaxCalls ≤ s.halfOpenCalls then
      if cfg.successThreshold ≤
          ((s.halfOpenSuccesses + 1 : Nat) : ℚ) / (s.halfOpenCalls : ℚ) then
        CBState.start
      else
        { s with
          cbState := .OPEN
          halfOpenSuccesses := s.halfOpenSuccesses + 1 }
    else { s with halfOpenSuccesses := s.halfOpenSuccesses + 1 }
  | .OPEN => s

/-- Apply `HandleFailure` once per element of `times`, in order. -/
def applyFailures (cfg : CircuitBreakerConfig) (s : CBState) :
    List Nat → CBState
  | [] => s
  | t :: ts => applyFailures cfg (HandleFailure cfg t s) ts

/-- Outcome of one attempted backend operation. -/
inductive CallOutcome : Type
  | opSuccess | opFailure
  deriving DecidableEq, Repr

/-- Result reported by `ExecuteWithCircuitBreaker`: either the breaker
rejected the call (`CircuitOpen`), or the call was attempted and
completed with the given outcome. -/
inductive ExecResult : Type
  | circuitOpen
  | completed (o : CallOutcome)
  deriving DecidableEq, Repr

/-- Client state threaded through `ExecuteWithCircuitBreaker`: the
breaker state plus the reject counter (`circuitBreakerRejects_`,
grpc_client.h line 257) and counts of `HandleSuccess`/`HandleFailure`
invocations. -/
structure ExecState where
  cb : CBState
  circuitBreakerRejects : Nat
  handleSuccessCalls : Nat
  handleFailureCalls : Nat
  deriving DecidableEq, Repr

/-- Modelled from the spec: `GrpcClient::ExecuteWithCircuitBreaker`
(declared at grpc_client.h lines 292-295; its body is not in the
repository).  If `IsRequestAllowed` rejects, report `CircuitOpen`,
increment `circuitBreakerRejects_`, and call neither `HandleSuccess` nor
`HandleFailure`; otherwise run the operation and report its outcome to
exactly one of the two. -/
def ExecuteWithCircuitBreaker (cfg : CircuitBreakerConfig) (now : Nat)
    (st : ExecState) (outcome : CallOutcome) : ExecResult × ExecState :=
  let allowed := IsRequestAllowed cfg now st.cb
  if allowed.1 then
    match outcome with
    | .opSuccess =>
      (.completed .opSuccess,
       { st with
         cb := HandleSuccess cfg allowed.2
         handleSuccessCalls := st.handleSuccessCalls + 1 })
    | .opFailure =>
      (.completed .opFailure,
       { st with
         cb := HandleFailure cfg now allowed.2
         handleFailureCalls := st.handleFailureCalls + 1 })
  else
    (.circuitOpen,
     { st with
       cb := allowed.2
       circuitBreakerRejects := st.circuitBreakerRejects + 1 })

/-! ## Connection pool (grpc_client.h declares the configuration at lines
44-54, the pool at line 242 and the operations at lines 274-280; the
defining .cpp file is not in the repository snapshot) -/

/-- Connection pool configuration (grpc_client.h lines 44-54); only the
numeric limits matter to the pool logic. -/
structure ConnectionPoolConfig where
  maxConnections : Nat := 10
  idleTimeout : Nat := 30
  connectTimeout : Nat := 5
  requestTimeout : Nat := 10
  deriving DecidableEq, Repr

/-- Embedding of `PooledConnection` (grpc_client.h lines 87-95): the
channel and stub are abstracted into an identifier, keeping the
`lastUsed` timestamp and the `inUse` flag. -/
structure PooledConnection where
  connId : Nat
  inUse : Bool
  lastUsed : Nat
  deriving DecidableEq, Repr

/-- State of the connection pool (`connectionPool_`, grpc_client.h line
242) plus a counter from which fresh connection identifiers are drawn. -/
structure PoolState where
  conns : List PooledConnection
  nextId : Nat
  deriving DecidableEq, Repr

/-- Result of an acquire attempt: a checked-out connection identifier, or
pool exhaustion after the bounded wait. -/
inductive AcquireResult : Type
  | acquired (connId : Nat)
  | poolExhausted
  deriving DecidableEq, Repr

/-- Modelled from the spec: `GrpcClient::AcquireConnection` (declared at
grpc_client.h line 274; its body is not in the repository).  Reuse a free
connection if one exists; otherwise create a new one only while the pool
is below `maxConnections`; at capacity with every connection checked out
the caller waits up to `connectTimeout` and then fails with
`PoolExhausted` (the bounded blocking wait is modelled as the immediate
`poolExhausted` outcome). -/
def AcquireConnection (cfg : ConnectionPoolConfig) (now : Nat)
    (st : PoolState) : AcquireResult × PoolState :=
  match st.conns.find? (fun c => !c.inUse) with
  | some c =>
    (.acquired c.connId,
     { st with
       conns := st.conns.map (fun d =>
         if d.connId = c.connId then { d with inUse := true, lastUsed := now }
         else d) })
  | none =>
    if st.conns.length < cfg.maxConnections then
      (.acquired st.nextId,
       { conns := { connId := st.nextId, inUse := true, lastUsed := now }
           :: st.conns
         nextId := st.nextId + 1 })
    else (.poolExhausted, st)

/-- Modelled from the spec: `GrpcClient::ReleaseConnection` (declared at
grpc_client.h line 280; its body is not in the repository).  Mark the
connection not-in-use and refresh its last-used timestamp. -/
def ReleaseConnection (now : Nat) (st : PoolState) (connId : Nat) :
    PoolState :=
  { st with
    conns := st.conns.map (fun d =>
      if d.connId = connId then { d with inUse := false, lastUsed := now }
      else d) }

/-! ## Opaque handle table (csp_provider.h declares the object layouts at
lines 402-449 and the validators at lines 659-673; the defining .cpp file
is not in the repository snapshot) -/

/-- Kinds of objects tracked by the handle table. -/
inductive HandleKind : Type
  | provider | key | hash
  deriving DecidableEq, Repr

/-- Payload of `CSP_PROVIDER_CONTEXT` (csp_provider.h lines 402-418) with
the backend client references abstracted away. -/
structure ProviderPayload where
  dwProvType : Nat
  pszContainer : Option String
  dwFlags : Nat
  deriving DecidableEq, Repr

/-- Payload of `CSP_KEY_HANDLE` (csp_provider.h lines 425-434); `owner`
is the handle of the parent provider context (`pContext`). -/
structure KeyPayload where
  dwKeySpec : Nat
  dwAlgorithm : Nat
  dwKeySize : Nat
  keyId : String
  owner : Nat
  deriving DecidableEq, Repr

/-- Payload of `CSP_HASH_HANDLE` (csp_provider.h lines 441-449); `owner`
is the handle of the parent provider context (`pContext`). -/
structure HashPayload where
  dwAlgorithm : Nat
  hashData : List Nat
  bFinalized : Bool
  owner : Nat
  deriving DecidableEq, Repr

/-- Object stored in one live slot of the handle table. -/
inductive HandleObject : Type
  | provider (p : ProviderPayload)
  | key (k : KeyPayload)
  | hash (h : HashPayload)
  deriving DecidableEq, Repr

/-- Kind of a stored object. -/
def HandleObject.kind : HandleObject → HandleKind
  | .provider _ => .provider
  | .key _ => .key
  | .hash _ => .hash

/-- Whether an object is a key or hash owned by provider handle `pid`. -/
def HandleObject.ownedBy (o : HandleObject) (pid : Nat) : Bool :=
  match o with
  | .provider _ => false
  | .key k => k.owner = pid
  | .hash h => h.owner = pid

/-- Lookup of a handle value in the slot association list. -/
def findSlot : List (Nat × HandleObject) → Nat → Option HandleObject
  | [], _ => none
  | (h, o) :: rest, target => if h = target then some o else findSlot rest target

/-- Modelled from the spec: the opaque handle table (its implementation
file is not in the repository).  Live slots keyed by handle value,
together with the monotone counter from which fresh handle values are
issued (handle value 0 is never issued). -/
structure HandleTable where
  slots : List (Nat × HandleObject)
  nextHandle : Nat
  deriving DecidableEq, Repr

/-- Empty handle table; issued handle values start at 1. -/
def HandleTable.empty : HandleTable := { slots := [], nextHandle := 1 }

/-- Modelled from the spec: `Create(kind, payload) -> handle` allocates a
new slot and returns a handle value unique among live handles. -/
def HandleTable.create (t : HandleTable) (o : HandleObject) :
    Nat × HandleTable :=
  (t.nextHandle,
   { slots := (t.nextHandle, o) :: t.slots, nextHandle := t.nextHandle + 1 })

/-- Modelled from the spec: `Resolve(handle, expectedKind)` fails if the
handle is unknown, retired, or of the wrong kind. -/
def HandleTable.resolve (t : HandleTable) (h : Nat) (k : HandleKind) :
    Option HandleObject :=
  match findSlot t.slots h with
  | some o => if o.kind = k then some o else none
  | none => none

/-- Modelled from the spec: the validators `ValidateProviderHandle`,
`ValidateKeyHandle` and `ValidateHashHandle` (declared at csp_provider.h
lines 659-673; their bodies are not in the repository).  Resolve the
handle against the expected kind; on failure return null and report the
`CspErrorCode::InvalidHandle` host code (NTE_BAD_KEY_STATE). -/
def ValidateHandle (t : HandleTable) (h : Nat) (k : HandleKind) :
    Option HandleObject × Option Nat :=
  match t.resolve h k with
  | some o => (some o, none)
  | none => (none, some CspErrorCode.InvalidHandle.toDWORD)

/-- Modelled from the spec: `Retire(handle)`.  Retiring an unknown or
already-retired handle is a failed no-op; retiring a provider context
cascades, removing every key/hash slot it owns; retiring a key or hash
removes just that slot. -/
def HandleTable.retire (t : HandleTable) (h : Nat) : HandleTable × Bool :=
  match findSlot t.slots h with
  | none => (t, false)
  | some o =>
    match o with
    | .provider _ =>
      ({ t with
         slots := t.slots.filter
           (fun p => !(p.1 = h || p.2.ownedBy h)) }, true)
    | _ =>
      ({ t with slots := t.slots.filter (fun p => !(p.1 = h)) }, true)

/-- Modelled from the spec: `Internal_CPReleaseContext` (declared at
error_handling.h line 219; its body is not in the repository) retires the
provider context handle, cascading over the key/hash handles it owns. -/
def Internal_CPReleaseContext (t : HandleTable) (hProv : Nat) :
    HandleTable × Bool :=
  t.retire hProv

/-! ## Concrete states used as evaluation inputs -/

/-- Failed gRPC result carrying no message anywhere: success is false and
both the explicit error message and the non-OK status's message are
empty. -/
def emptyFailureResult : GrpcResult :=
  { success := false
    status := { code := .UNAVAILABLE, message := "" }
    errorMessage := "" }

/-- Failed gRPC result whose non-OK transport status carries a message. -/
def unavailableResult : GrpcResult :=
  { success := false
    status := { code := .UNAVAILABLE, message := "backend unavailable" }
    errorMessage := "" }

/-- Breaker state that has just opened after five failures, the last one
at time 100. -/
def openBreakerState : CBState :=
  { cbState := .OPEN, failureCount := 5, halfOpenCalls := 0,
    halfOpenSuccesses := 0, lastFailureTime := 100 }

/-- Client state whose breaker is `openBreakerState` and whose counters
are all zero. -/
def openExecState : ExecState :=
  { cb := openBreakerState, circuitBreakerRejects := 0,
    handleSuccessCalls := 0, handleFailureCalls := 0 }

/-- Half-open breaker state in which all three probes of the default
configuration have been admitted and none has succeeded yet. -/
def probedHalfOpenState : CBState :=
  { cbState := .HALF_OPEN, failureCount := 5, halfOpenCalls := 3,
    halfOpenSuccesses := 0, lastFailureTime := 100 }

/-- Pool configuration with `maxConnections = 3` (the spec's exhaustion
scenario). -/
def smallPoolConfig : ConnectionPoolConfig := { maxConnections := 3 }

/-- Pool at capacity for `smallPoolConfig` with every connection checked
out. -/
def fullPool : PoolState :=
  { conns := [{ connId := 1, inUse := true, lastUsed := 0 },
              { connId := 2, inUse := true, lastUsed := 0 },
              { connId := 3, inUse := true, lastUsed := 0 }]
    nextId := 4 }

/-- Pool with one free and one checked-out connection. -/
def mixedPool : PoolState :=
  { conns := [{ connId := 1, inUse := true, lastUsed := 0 },
              { connId := 2, inUse := false, lastUsed := 0 }]
    nextId := 3 }

/-- Handle table holding provider context 1 and a key handle 2 owned by
it. -/
def sampleTable : HandleTable :=
  { slots := [(2, .key { dwKeySpec := 1, dwAlgorithm := 0x2400,
                         dwKeySize := 2048, keyId := "k1", owner := 1 }),
              (1, .provider { dwProvType := 1, pszContainer := none,
                              dwFlags := 0 })]
    nextHandle := 3 }

/-! ## Theorems -/

/-- C8: with `g_bInitialized` false, every exported CP* entry point
returns FALSE and sets the last CSP error to NTE_PROVIDER_DLL_FAIL
without invoking the corresponding Internal_CP* operation, whatever that
operation would return. -/
theorem uninitializedExportsGuarded :
    ∀ (internal : CPEntryPoint → Bool) (ep : CPEntryPoint),
      cpExport false internal ep =
        { ret := false, guardError := some NTE_PROVIDER_DLL_FAIL,
          internalInvoked := false } := by
  intro internal ep
  rfl

/-- C9: the stub GrpcClient compiled without gRPC support is inert:
Initialize() and IsReady() return false and every cryptographic operation
returns a result with success false and the fixed error message. -/
theorem stubClientInert :
    stubInitialize = false ∧ stubIsReady = false ∧
      ∀ op : StubOp, (stubCall op).success = false ∧
        (stubCall op).errorMessage = "gRPC support not enabled" := by
  refine ⟨rfl, rfl, fun op => ⟨rfl, rfl⟩⟩

/-- C10: the host error enumeration is not injective (NetworkError and
InternalError both carry NTE_FAIL; AuthenticationFailed and BadKeySpec
both carry NTE_BAD_KEY), two distinct backend error kinds translate to
the same host DWORD, and consequently the backend-to-host-to-backend
round trip is not the identity for some backend code. -/
theorem errorCodeAliasingBreaksRoundtrip :
    (CspErrorCode.NetworkError ≠ CspErrorCode.InternalError ∧
      CspErrorCode.NetworkError.toDWORD = CspErrorCode.InternalError.toDWORD) ∧
    (CspErrorCode.AuthenticationFailed ≠ CspErrorCode.BadKeySpec ∧
      CspErrorCode.AuthenticationFailed.toDWORD =
        CspErrorCode.BadKeySpec.toDWORD) ∧
    (BackendError.errNetwork ≠ BackendError.errInternal ∧
      MapBackendErrorToCspError .errNetwork =
        MapBackendErrorToCspError .errInternal) ∧
    MapCspErrorToBackendError (MapBackendErrorToCspError .errNetwork) ≠
      BackendError.errNetwork := by
  decide

/-- Translation depends only on the status code, never on the message. -/
theorem mapGrpcIgnoresMessage (c : GrpcStatusCode) (m : String) :
    MapGrpcStatusToCspError { code := c, message := m } =
      MapGrpcStatusToCspError { code := c, message := "" } := by
  cases c <;> rfl

/-- C3: the transport-to-host translation is total and deterministic:
every gRPC status yields a defined host error DWORD, and every status
whose code has no specific table entry yields the generic InternalError
code. -/
theorem grpcTranslationTotal :
    (∀ status : GrpcStatus,
      MapGrpcStatusToCspError status ∈ definedCspDwords) ∧
    (∀ status : GrpcStatus, status.code ∉ mappedGrpcStatusCodes →
      MapGrpcStatusToCspError status = CspErrorCode.InternalError.toDWORD) := by
  constructor
  · rintro ⟨c, m⟩
    rw [mapGrpcIgnoresMessage]
    cases c <;> decide
  · rintro ⟨c, m⟩ hs
    rw [mapGrpcIgnoresMessage]
    have hs' : c ∉ mappedGrpcStatusCodes := hs
    revert hs'
    cases c <;> intro hs' <;> first
      | rfl
      | exact (hs' (by decide)).elim

/-- Witness for C3 at the concrete unmapped status CANCELLED. -/
theorem grpcTranslationTotalWitness :
    MapGrpcStatusToCspError { code := .CANCELLED, message := "" } ∈
      definedCspDwords ∧
    MapGrpcStatusToCspError { code := .CANCELLED, message := "" } =
      CspErrorCode.InternalError.toDWORD :=
  ⟨grpcTranslationTotal.1 { code := .CANCELLED, message := "" },
   grpcTranslationTotal.2 { code := .CANCELLED, message := "" } (by decide)⟩

/-- C7 counterexample: a failed result whose explicit error message and
status message are both empty makes GetErrorMessage() return the empty
string, so the retrievable error description of a failed operation can be
empty. -/
theorem failedResultEmptyMessage :
    emptyFailureResult.IsSuccess = false ∧
    emptyFailureResult.GetErrorMessage = "" := by
  decide

/-- C7 (amended): the CSP_RETURN_ERROR failure path stores the error
context and the error code before returning FALSE, and GetErrorMessage()
is non-empty for every failed result except when both the explicit
errorMessage and the non-OK status's message are empty. -/
theorem failurePathSetsContextAndMessage :
    (∀ (st : ThreadErrorState) (code : Nat) (msg : String),
      (cspReturnError st code msg).2 = false ∧
      (cspReturnError st code msg).1.lastError =
        some { errorCode := code, message := msg } ∧
      (cspReturnError st code msg).1.lastCspError = some code) ∧
    (∀ r : GrpcResult, r.IsSuccess = false →
      (r.errorMessage ≠ "" ∨ r.status.message ≠ "" ∨ r.status.ok = true) →
      r.GetErrorMessage ≠ "") := by
  constructor
  · intro st code msg
    exact ⟨rfl, rfl, rfl⟩
  · intro r _ hcond
    by_cases h1 : r.errorMessage = ""
    · by_cases h2 : r.status.ok = true
      · simp [GrpcResult.GetErrorMessage, h1, h2]
      · rcases hcond with hc | hc | hc
        · exact absurd h1 hc
        · simpa [GrpcResult.GetErrorMessage, h1, h2] using hc
        · exact absurd hc h2
    · simp [GrpcResult.GetErrorMessage, h1]

/-- Witness for C7 (amended) at a concrete thread state and a concrete
failed result whose status carries a message. -/
theorem failurePathSetsContextAndMessageWitness :
    (cspReturnError { lastError := none, lastCspError := none }
        NTE_FAIL "backend unavailable").2 = false ∧
    unavailableResult.GetErrorMessage ≠ "" :=
  ⟨(failurePathSetsContextAndMessage.1
      { lastError := none, lastCspError := none }
      NTE_FAIL "backend unavailable").1,
   failurePathSetsContextAndMessage.2 unavailableResult (by decide)
     (by decide)⟩

/-- Applying failures over an appended list composes. -/
theorem applyFailuresAppend (cfg : CircuitBreakerConfig)
    (ts us : List Nat) :
    ∀ s : CBState, applyFailures cfg s (ts ++ us) =
      applyFailures cfg (applyFailures cfg s ts) us := by
  induction ts with
  | nil => intro s; rfl
  | cons t ts ih => intro s; simp [applyFailures, ih]

/-- While the accumulated failure count stays below the threshold, the
breaker remains CLOSED and the counter tracks the number of failures. -/
theorem applyFailuresClosed (cfg : CircuitBreakerConfig) :
    ∀ (ts : List Nat) (s : CBState), s.cbState = .CLOSED →
      s.failureCount + ts.length < cfg.failureThreshold →
      (applyFailures cfg s ts).cbState = .CLOSED ∧
      (applyFailures cfg s ts).failureCount = s.failureCount + ts.length := by
  intro ts
  induction ts with
  | nil =>
    intro s h1 _
    exact ⟨h1, by simp [applyFailures]⟩
  | cons t ts ih =>
    rintro ⟨st, fc, hoc, hos, lft⟩ h1 h2
    simp only at h1
    subst h1
    simp only [List.length_cons] at h2
    have hng : ¬ cfg.failureThreshold ≤ fc + 1 := by omega
    have hred : HandleFailure cfg t
        { cbState := .CLOSED, failureCount := fc, halfOpenCalls := hoc,
          halfOpenSuccesses := hos, lastFailureTime := lft } =
        { cbState := .CLOSED, failureCount := fc + 1, halfOpenCalls := hoc,
          halfOpenSuccesses := hos, lastFailureTime := t } := by
      simp [HandleFailure, hng]
    have hrec := ih
      { cbState := .CLOSED, failureCount := fc + 1, halfOpenCalls := hoc,
        halfOpenSuccesses := hos, lastFailureTime := t } rfl
      (show fc + 1 + ts.length < cfg.failureThreshold by omega)
    refine ⟨?_, ?_⟩
    · simpa [applyFailures, hred] using hrec.1
    · have hfc2 : (applyFailures cfg
          { cbState := .CLOSED, failureCount := fc + 1, halfOpenCalls := hoc,
            halfOpenSuccesses := hos, lastFailureTime := t } ts).failureCount
          = fc + 1 + ts.length := hrec.2
      simp only [applyFailures, hred, hfc2, List.length_cons]
      omega

/-- When `IsRequestAllowed` rejects a request it leaves the breaker state
untouched. -/
theorem isRequestAllowedRejectFrame (cfg : CircuitBreakerConfig)
    (now : Nat) (s : CBState) :
    (IsRequestAllowed cfg now s).1 = false →
    (IsRequestAllowed cfg now s).2 = s := by
  rcases s with ⟨st, fc, hoc, hos, lft⟩
  intro h
  cases st
  · simp [IsRequestAllowed] at h
  · by_cases hc : lft + cfg.timeout ≤ now
    · simp [IsRequestAllowed, hc] at h
    · simp [IsRequestAllowed, hc]
  · by_cases hc : hoc < cfg.halfOpenMaxCalls
    · simp [IsRequestAllowed, hc] at h
    · simp [IsRequestAllowed, hc]

/-- C1: starting CLOSED with a zero failure counter, after exactly
failureThreshold consecutive HandleFailure calls the breaker is OPEN and
IsRequestAllowed returns false (leaving the state unchanged, hence
remaining false) at every instant before `timeout` has elapsed since the
last failure; and a success recorded in HALF_OPEN once all probes have
been admitted whose resulting success ratio is below successThreshold
sends the breaker back to OPEN, not CLOSED. -/
theorem breakerOpensAndHalfOpenReverts :
    (∀ (cfg : CircuitBreakerConfig) (s : CBState) (ts : List Nat)
        (tlast : Nat),
      s.cbState = .CLOSED → s.failureCount = 0 →
      ts.length + 1 = cfg.failureThreshold →
      (applyFailures cfg s (ts ++ [tlast])).cbState = .OPEN ∧
      (applyFailures cfg s (ts ++ [tlast])).lastFailureTime = tlast ∧
      ∀ now, now < tlast + cfg.timeout →
        (IsRequestAllowed cfg now (applyFailures cfg s (ts ++ [tlast]))).1
          = false ∧
        (IsRequestAllowed cfg now (applyFailures cfg s (ts ++ [tlast]))).2
          = applyFailures cfg s (ts ++ [tlast])) ∧
    (∀ (cfg : CircuitBreakerConfig) (s : CBState),
      s.cbState = .HALF_OPEN →
      cfg.halfOpenMaxCalls ≤ s.halfOpenCalls →
      ((s.halfOpenSuccesses : ℚ) + 1) / (s.halfOpenCalls : ℚ) <
        cfg.successThreshold →
      (HandleSuccess cfg s).cbState = .OPEN) := by
  constructor
  · intro cfg s ts tlast h1 h2 h3
    have hmid := applyFailuresClosed cfg ts s h1 (by omega)
    rw [applyFailuresAppend]
    rcases hred : applyFailures cfg s ts with ⟨st, fc, hoc, hos, lft⟩
    rw [hred] at hmid
    simp only at hmid
    rcases hmid with ⟨hst, hfc⟩
    subst hst
    have hth : cfg.failureThreshold ≤ fc + 1 := by omega
    have hfin : applyFailures cfg
        { cbState := .CLOSED, failureCount := fc, halfOpenCalls := hoc,
          halfOpenSuccesses := hos, lastFailureTime := lft } [tlast] =
        { cbState := .OPEN, failureCount := fc + 1, halfOpenCalls := hoc,
          halfOpenSuccesses := hos, lastFailureTime := tlast } := by
      simp [applyFailures, HandleFailure, hth]
    rw [hfin]
    refine ⟨rfl, rfl, ?_⟩
    intro now hnow
    have hcond : ¬ (tlast + cfg.timeout ≤ now) := by omega
    constructor <;> simp [IsRequestAllowed, hcond]
  · rintro cfg ⟨st, fc, hoc, hos, lft⟩ h1 h2 h3
    simp only at h1 h2 h3
    subst h1
    have hr : ¬ cfg.successThreshold ≤ ((hos : ℚ) + 1) / (hoc : ℚ) :=
      not_le.mpr h3
    simp [HandleSuccess, h2, hr]

/-- Witness for C1 with the default configuration: five failures at times
1..5 open the breaker, request 6 is rejected at time 30, and a lone
successful probe out of three admitted in HALF_OPEN reopens the
circuit. -/
theorem breakerOpensAndHalfOpenRevertsWitness :
    ((applyFailures {} CBState.start ([1, 2, 3, 4] ++ [5])).cbState
        = .OPEN ∧
      (IsRequestAllowed {} 30
        (applyFailures {} CBState.start ([1, 2, 3, 4] ++ [5]))).1
        = false) ∧
    (HandleSuccess {} probedHalfOpenState).cbState = .OPEN := by
  have h1 := breakerOpensAndHalfOpenReverts.1 {} CBState.start
    [1, 2, 3, 4] 5 rfl rfl (by rfl)
  have h2 := breakerOpensAndHalfOpenReverts.2 {} probedHalfOpenState
    rfl (by norm_num [probedHalfOpenState])
    (by norm_num [probedHalfOpenState])
  exact ⟨⟨h1.1, (h1.2.2 30 (by norm_num)).1⟩, h2⟩

/-- C2: every call that IsRequestAllowed rejects reports CircuitOpen,
increments only the reject counter, invokes neither HandleSuccess nor
HandleFailure, and leaves the breaker state (and with it the failure
counter) unchanged. -/
theorem rejectedCallLeavesBreakerUnchanged :
    ∀ (cfg : CircuitBreakerConfig) (now : Nat) (st : ExecState)
      (outcome : CallOutcome),
      (IsRequestAllowed cfg now st.cb).1 = false →
      (ExecuteWithCircuitBreaker cfg now st outcome).1 = .circuitOpen ∧
      (ExecuteWithCircuitBreaker cfg now st outcome).2.cb = st.cb ∧
      (ExecuteWithCircuitBreaker cfg now st outcome).2.handleSuccessCalls
        = st.handleSuccessCalls ∧
      (ExecuteWithCircuitBreaker cfg now st outcome).2.handleFailureCalls
        = st.handleFailureCalls ∧
      (ExecuteWithCircuitBreaker cfg now st outcome).2.circuitBreakerRejects
        = st.circuitBreakerRejects + 1 := by
  intro cfg now st outcome hrej
  have hframe := isRequestAllowedRejectFrame cfg now st.cb hrej
  simp [ExecuteWithCircuitBreaker, hrej, hframe]

/-- Witness for C2: a freshly opened breaker at time 100 rejects a call
at time 130 and neither counter nor state moves except the reject
count. -/
theorem rejectedCallLeavesBreakerUnchangedWitness :
    (IsRequestAllowed {} 130 openExecState.cb).1 = false ∧
    (ExecuteWithCircuitBreaker {} 130 openExecState .opFailure).1
      = .circuitOpen ∧
    (ExecuteWithCircuitBreaker {} 130 openExecState .opFailure).2.cb
      = openExecState.cb ∧
    (ExecuteWithCircuitBreaker {} 130 openExecState
      .opFailure).2.circuitBreakerRejects
      = openExecState.circuitBreakerRejects + 1 := by
  have hrej : (IsRequestAllowed {} 130 openExecState.cb).1 = false := by
    decide
  have h := rejectedCallLeavesBreakerUnchanged {} 130 openExecState
    .opFailure hrej
  exact ⟨hrej, h.1, h.2.1, h.2.2.2.2⟩

/-- C6: the pool never holds more than maxConnections connections; with
every connection checked out and the pool at capacity a further acquire
fails with PoolExhausted and changes nothing (no connection is created
beyond the limit); and an acquire only hands out a connection that was
not checked out, so a connection held by one caller is never handed to
another. -/
theorem poolBoundedAndExclusive :
    (∀ (cfg : ConnectionPoolConfig) (now : Nat) (st : PoolState),
      st.conns.length ≤ cfg.maxConnections →
      (AcquireConnection cfg now st).2.conns.length ≤ cfg.maxConnections) ∧
    (∀ (cfg : ConnectionPoolConfig) (now : Nat) (st : PoolState),
      (∀ c ∈ st.conns, c.inUse = true) →
      cfg.maxConnections ≤ st.conns.length →
      AcquireConnection cfg now st = (.poolExhausted, st)) ∧
    (∀ (cfg : ConnectionPoolConfig) (now : Nat) (st : PoolState) (i : Nat),
      (∀ c ∈ st.conns, c.connId < st.nextId) →
      (st.conns.map PooledConnection.connId).Nodup →
      (AcquireConnection cfg now st).1 = .acquired i →
      ∀ c ∈ st.conns, c.connId = i → c.inUse = false) := by
  refine ⟨?_, ?_, ?_⟩
  · intro cfg now st hlen
    cases hf : st.conns.find? (fun c => !c.inUse) with
    | some c =>
      simpa [AcquireConnection, hf] using hlen
    | none =>
      by_cases hlt : st.conns.length < cfg.maxConnections
      · simp only [AcquireConnection, hf]
        simp [hlt]
        omega
      · simpa [AcquireConnection, hf, hlt] using hlen
  · intro cfg now st hall hmax
    have hf : st.conns.find? (fun c => !c.inUse) = none := by
      rw [List.find?_eq_none]
      intro c hc
      simp [hall c hc]
    have hlt : ¬ st.conns.length < cfg.maxConnections := by omega
    simp [AcquireConnection, hf, hlt]
  · intro cfg now st i hfresh hnodup hacq c hc hid
    cases hf : st.conns.find? (fun d => !d.inUse) with
    | some c0 =>
      have hmem : c0 ∈ st.conns := List.mem_of_find?_eq_some hf
      have hfree := List.find?_some hf
      have hi : c0.connId = i := by
        simpa [AcquireConnection, hf] using hacq
      have hceq : c = c0 :=
        List.inj_on_of_nodup_map hnodup hc hmem (by rw [hid, hi])
      subst hceq
      simpa using hfree
    | none =>
      by_cases hlt : st.conns.length < cfg.maxConnections
      · have hi : st.nextId = i := by
          simpa [AcquireConnection, hf, hlt] using hacq
        have := hfresh c hc
        omega
      · have : (AcquireConnection cfg now st).1 = .poolExhausted := by
          simp [AcquireConnection, hf, hlt]
        rw [hacq] at this
        exact absurd this (by simp)

/-- Witness for C6: the 3-connection scenario — a full pool of three
checked-out connections under `maxConnections = 3` stays at three, a 4th
acquire observes PoolExhausted without creating a channel, and in a pool
with a free connection the acquire hands out only the free one. -/
theorem poolBoundedAndExclusiveWitness :
    (AcquireConnection smallPoolConfig 7 fullPool).2.conns.length ≤
      smallPoolConfig.maxConnections ∧
    AcquireConnection smallPoolConfig 7 fullPool = (.poolExhausted, fullPool) ∧
    (∀ c ∈ mixedPool.conns, c.connId = 2 → c.inUse = false) := by
  refine ⟨poolBoundedAndExclusive.1 smallPoolConfig 7 fullPool (by decide),
    poolBoundedAndExclusive.2.1 smallPoolConfig 7 fullPool (by decide)
      (by decide), ?_⟩
  exact poolBoundedAndExclusive.2.2 smallPoolConfig 7 mixedPool 2
    (by decide) (by decide) (by decide)

/-- Lookup misses when no slot carries the key. -/
theorem findSlotEqNone :
    ∀ (l : List (Nat × HandleObject)) (h : Nat),
      (∀ p ∈ l, p.1 ≠ h) → findSlot l h = none := by
  intro l h
  induction l with
  | nil => intro _; rfl
  | cons p l ih =>
    intro hne
    have hp := hne p (by simp)
    simp only [findSlot, hp, if_false]
    exact ih (fun q hq => hne q (by simp [hq]))

/-- Lookup misses in a filtered list when the filter drops every slot
carrying the key. -/
theorem findSlotFilterNone (P : Nat × HandleObject → Bool) :
    ∀ (l : List (Nat × HandleObject)) (h : Nat),
      (∀ p ∈ l, p.1 = h → P p = false) →
      findSlot (l.filter P) h = none := by
  intro l h
  induction l with
  | nil => intro _; rfl
  | cons p l ih =>
    intro hP
    have htail : ∀ q ∈ l, q.1 = h → P q = false :=
      fun q hq hq1 => hP q (by simp [hq]) hq1
    by_cases hp : p.1 = h
    · have hPp := hP p (by simp) hp
      simp only [List.filter_cons, hPp, if_false, Bool.false_eq_true]
      exact ih htail
    · cases hPp : P p with
      | false =>
        simp only [List.filter_cons, hPp, Bool.false_eq_true, if_false]
        exact ih htail
      | true =>
        simp only [List.filter_cons, hPp, if_true, findSlot, hp, if_false]
        exact ih htail

/-- With duplicate-free keys, a successful lookup pins down every slot
carrying that key. -/
theorem findSlotNodupUnique :
    ∀ (l : List (Nat × HandleObject)) (h : Nat) (o : HandleObject),
      (l.map Prod.fst).Nodup → findSlot l h = some o →
      ∀ p ∈ l, p.1 = h → p = (h, o) := by
  intro l h o
  induction l with
  | nil => intro _ hf; simp [findSlot] at hf
  | cons q l ih =>
    intro hn hf p hp hp1
    rw [List.map_cons, List.nodup_cons] at hn
    rw [List.mem_cons] at hp
    by_cases hq1 : q.1 = h
    · have hqo : q.2 = o := by
        simpa [findSlot, hq1] using hf
      rcases hp with hp | hp
      · subst hp
        exact Prod.ext hq1 hqo
      · exfalso
        apply hn.1
        rw [hq1, ← hp1]
        exact List.mem_map_of_mem Prod.fst hp
    · have hf' : findSlot l h = some o := by
        simpa [findSlot, hq1] using hf
      rcases hp with hp | hp
      · subst hp; exact absurd hp1 hq1
      · exact ih hn.2 hf' p hp hp1

/-- Retiring an unknown or already-retired handle changes nothing and
reports failure. -/
theorem retireMiss (t : HandleTable) (h : Nat)
    (hfind : findSlot t.slots h = none) : t.retire h = (t, false) := by
  unfold HandleTable.retire
  rw [hfind]

/-- Retiring a provider context filters out its own slot and every slot
it owns. -/
theorem retireProviderSlots (t : HandleTable) (h : Nat)
    (pp : ProviderPayload)
    (hfind : findSlot t.slots h = some (.provider pp)) :
    (t.retire h).1.slots =
      t.slots.filter (fun p => !(p.1 = h || p.2.ownedBy h)) := by
  unfold HandleTable.retire
  rw [hfind]

/-- Retiring a key handle filters out just its own slot. -/
theorem retireKeySlots (t : HandleTable) (h : Nat) (kk : KeyPayload)
    (hfind : findSlot t.slots h = some (.key kk)) :
    (t.retire h).1.slots = t.slots.filter (fun p => !(p.1 = h)) := by
  unfold HandleTable.retire
  rw [hfind]

/-- Retiring a hash handle filters out just its own slot. -/
theorem retireHashSlots (t : HandleTable) (h : Nat) (hh : HashPayload)
    (hfind : findSlot t.slots h = some (.hash hh)) :
    (t.retire h).1.slots = t.slots.filter (fun p => !(p.1 = h)) := by
  unfold HandleTable.retire
  rw [hfind]

/-- Validation fails with the InvalidHandle host code whenever the lookup
misses. -/
theorem validateHandleFail (t : HandleTable) (h : Nat) (k : HandleKind)
    (hnone : findSlot t.slots h = none) :
    ValidateHandle t h k =
      (none, some CspErrorCode.InvalidHandle.toDWORD) := by
  unfold ValidateHandle HandleTable.resolve
  rw [hnone]

/-- C4: a handle value that was never issued (at or above the issue
counter) or that has been retired validates to null with the
InvalidHandle host code, and a successful validation never yields an
object of the wrong kind. -/
theorem invalidHandlesRejected :
    (∀ (t : HandleTable) (h : Nat) (k : HandleKind),
      (∀ p ∈ t.slots, p.1 < t.nextHandle) → t.nextHandle ≤ h →
      ValidateHandle t h k =
        (none, some CspErrorCode.InvalidHandle.toDWORD)) ∧
    (∀ (t : HandleTable) (h : Nat) (k : HandleKind),
      ValidateHandle (t.retire h).1 h k =
        (none, some CspErrorCode.InvalidHandle.toDWORD)) ∧
    (∀ (t : HandleTable) (h : Nat) (k : HandleKind) (o : HandleObject),
      (ValidateHandle t h k).1 = some o → o.kind = k) := by
  refine ⟨?_, ?_, ?_⟩
  · intro t h k hwf hge
    apply validateHandleFail
    apply findSlotEqNone
    intro p hp
    have := hwf p hp
    omega
  · intro t h k
    cases hfind : findSlot t.slots h with
    | none =>
      rw [retireMiss t h hfind]
      exact validateHandleFail t h k hfind
    | some o =>
      apply validateHandleFail
      cases o with
      | provider p =>
        rw [retireProviderSlots t h p hfind]
        exact findSlotFilterNone _ t.slots h (fun q _ hq1 => by simp [hq1])
      | key kk =>
        rw [retireKeySlots t h kk hfind]
        exact findSlotFilterNone _ t.slots h (fun q _ hq1 => by simp [hq1])
      | hash hh =>
        rw [retireHashSlots t h hh hfind]
        exact findSlotFilterNone _ t.slots h (fun q _ hq1 => by simp [hq1])
  · intro t h k o hval
    cases hf : findSlot t.slots h with
    | none =>
      simp [ValidateHandle, HandleTable.resolve, hf] at hval
    | some o2 =>
      by_cases hk : o2.kind = k
      · have : o2 = o := by
          simpa [ValidateHandle, HandleTable.resolve, hf, hk] using hval
        rw [← this]
        exact hk
      · simp [ValidateHandle, HandleTable.resolve, hf, hk] at hval

/-- Witness for C4: in the sample table, the never-issued handle 5 and
the just-retired key handle 2 both validate to null with InvalidHandle,
and validating handle 2 as a key succeeds with a key object. -/
theorem invalidHandlesRejectedWitness :
    ValidateHandle sampleTable 5 .key =
      (none, some CspErrorCode.InvalidHandle.toDWORD) ∧
    ValidateHandle (sampleTable.retire 2).1 2 .key =
      (none, some CspErrorCode.InvalidHandle.toDWORD) :=
  ⟨invalidHandlesRejected.1 sampleTable 5 .key (by decide) (by decide),
   invalidHandlesRejected.2.1 sampleTable 2 .key⟩

/-- C5: retiring a provider context through CPReleaseContext cascades to
every key/hash handle it owns: afterwards such a handle validates to null
with the InvalidHandle host code instead of resolving to stale state. -/
theorem releaseContextCascades :
    ∀ (t : HandleTable) (hProv hChild : Nat) (k : HandleKind)
      (pp : ProviderPayload) (o : HandleObject),
      (t.slots.map Prod.fst).Nodup →
      findSlot t.slots hProv = some (.provider pp) →
      findSlot t.slots hChild = some o →
      o.ownedBy hProv = true →
      ValidateHandle (Internal_CPReleaseContext t hProv).1 hChild k =
        (none, some CspErrorCode.InvalidHandle.toDWORD) := by
  intro t hProv hChild k pp o hnodup hprov hchild howned
  have huniq := findSlotNodupUnique t.slots hChild o hnodup hchild
  apply validateHandleFail
  have hslots : (Internal_CPReleaseContext t hProv).1.slots =
      t.slots.filter (fun p => !(p.1 = hProv || p.2.ownedBy hProv)) :=
    retireProviderSlots t hProv pp hprov
  rw [hslots]
  apply findSlotFilterNone
  intro p hp hp1
  have hpe := huniq p hp hp1
  subst hpe
  simp [howned]

/-- Witness for C5: retiring provider context 1 of the sample table
invalidates the key handle 2 it owns. -/
theorem releaseContextCascadesWitness :
    ValidateHandle (Internal_CPReleaseContext sampleTable 1).1 2 .key =
      (none, some CspErrorCode.InvalidHandle.toDWORD) :=
  releaseContextCascades sampleTable 1 2 .key
    { dwProvType := 1, pszContainer := none, dwFlags := 0 }
    (.key { dwKeySpec := 1, dwAlgorithm := 0x2400, dwKeySize := 2048,
            keyId := "k1", owner := 1 })
    (by decide) (by decide) (by decide) (by decide)

end SupacryptCsp
